import Mathlib

/-!
Verification of the Philler bottle-filling controller.

This file gives a shallow embedding of the core of the repository:

* `Hardware.py` (`Filler`): serial-frame parsing, the weight history and
  stability detector, the foot-switch latch, and the counts-to-psi pressure
  conversion.  Decimal constants are represented exactly as rationals.
* `Configuration.py` (`Configuration`): the typed configuration store.
* `philler.py` (`FillingSequencer`): the filling state machine, modelled as a
  step function over an explicit context, with the sensor snapshot and the
  countdown timer supplied as a per-tick environment (they are written by the
  other threads).

The embedding models the non-simulation mode of the hardware; the
`simulate*` shadow fields are never read when simulation is off, so they are
omitted (in particular `clearStable` only writes the simulation shadow and is
a no-op on the modelled fields).  Log output and the progress-message map are
not modelled; no claim refers to them.
-/

namespace Philler

/-! ## Hardware I/O engine (`Hardware.py`, class `Filler`) -/

/-- The snapshot fields of `Filler` that the rest of the system reads:
`_weight`, `_weights` (history, newest at the tail), `_stopswitch`,
`_footswitch`, `_footswitchLatched`, `pressureRaw`. -/
structure FillerState where
  weight : ℚ
  weights : List ℚ
  stopswitch : Bool
  footswitch : Bool
  footswitchLatched : Bool
  pressureRaw : ℤ
  deriving DecidableEq, Repr

/-- Initial field values from `Filler.__init__`. -/
def initFiller : FillerState :=
  { weight := 0, weights := [], stopswitch := false, footswitch := false,
    footswitchLatched := false, pressureRaw := 0 }

/-- `Filler.countsToPSI`: convert A-to-D counts into a PSI value.  The
slope/intercept derivation is reproduced from the source; all decimal
constants are exact rationals. -/
def countsToPSI (counts : ℚ) : ℚ :=
  let R : ℚ := 216
  let Vref : ℚ := 5
  let adRange : ℚ := 2 ^ 10
  let countsPerVolt : ℚ := adRange / Vref
  let I0psi : ℚ := 4 / 1000
  let I30psi : ℚ := 20 / 1000
  let V0psi : ℚ := I0psi * R
  let V30psi : ℚ := I30psi * R
  let C0psi : ℚ := V0psi * countsPerVolt
  let C30psi : ℚ := V30psi * countsPerVolt
  let PSIperCount : ℚ := (30 - 0) / (C30psi - C0psi)
  let PSIintercept : ℚ := -(PSIperCount * C0psi)
  PSIperCount * counts + PSIintercept

/-- The clipping of raw counts to [0, 1023] performed inside the `pressure`
property (written there as two successive `if`s). -/
def clipRaw (p : ℤ) : ℤ :=
  if p > 1023 then 1023 else if p < 0 then 0 else p

/-- The `Filler.pressure` property (non-simulation branch): clip the stored
raw counts, then convert to PSI. -/
def FillerState.pressure (s : FillerState) : ℚ :=
  let p := s.pressureRaw
  let p := if p > 1023 then 1023 else p
  let p := if p < 0 then 0 else p
  countsToPSI (p : ℚ)

/-- `self.maxweights = 30`: the weight history keeps the last 30 samples. -/
def maxweights : ℕ := 30

/-- The `while len(self._weights) > self.maxweights` trim loop in the
`weight` setter. -/
def trimWeights (l : List ℚ) : List ℚ :=
  if l.length > maxweights then trimWeights (l.drop 1) else l
termination_by l.length
decreasing_by simp [List.length_drop]; omega

/-- The `weight` setter: record the value, append it to the history, trim. -/
def setWeight (s : FillerState) (val : ℚ) : FillerState :=
  { s with weight := val, weights := trimWeights (s.weights ++ [val]) }

/-- The `Filler.stable` property (non-simulation branch): with more than two
samples, the weight is stable unless some earlier sample is more than 0.1 g
above or below the most recent one. -/
def FillerState.stable (s : FillerState) : Bool :=
  if s.weights.length > 2 then
    match s.weights.getLast? with
    | some latest =>
        s.weights.dropLast.all
          (fun val => !(decide (val > latest + 1/10)) && !(decide (val < latest - 1/10)))
    | none => true
  else true

/-! ### The inbound frame pattern

`re.match('([-+ ]*)\s*(\d+\.\d+)g\s*;(\d+);([sS]);([fF])', line)` from
`Filler.read`.  The regex is anchored at the start, allows trailing input,
and is deterministic (every greedy repetition is followed by a character it
cannot consume), so it is embedded as a straight-line scanner. -/

/-- The character class `[-+ ]` of the sign group. -/
def isSignChar (c : Char) : Bool :=
  c == '-' || c == '+' || c == ' '

/-- The character class `\s` (ASCII whitespace as matched by Python). -/
def isSpaceChar (c : Char) : Bool :=
  c == ' ' || c == '\t' || c == '\n' || c == '\r' || c == '\x0b' || c == '\x0c'

/-- The captured groups of a successful frame match: the sign prefix, the
two digit runs of the weight, the pressure digits, and the two switch
characters. -/
structure ParsedFrame where
  posneg : List Char
  intDigits : List Char
  fracDigits : List Char
  pressureDigits : List Char
  stopChar : Char
  footChar : Char
  deriving DecidableEq, Repr

/-- Match one inbound line against the frame pattern, returning the captured
groups, or `none` for a malformed line. -/
def matchFrame (l : List Char) : Option ParsedFrame :=
  let (g1, r1) := l.span isSignChar
  let (_, r2) := r1.span isSpaceChar
  let (d1, r3) := r2.span Char.isDigit
  if d1.isEmpty then none else
  match r3 with
  | '.' :: r4 =>
    let (d2, r5) := r4.span Char.isDigit
    if d2.isEmpty then none else
    match r5 with
    | 'g' :: r6 =>
      let (_, r7) := r6.span isSpaceChar
      match r7 with
      | ';' :: r8 =>
        let (d3, r9) := r8.span Char.isDigit
        if d3.isEmpty then none else
        match r9 with
        | ';' :: sc :: ';' :: fc :: _ =>
          if (sc == 's' || sc == 'S') && (fc == 'f' || fc == 'F') then
            some ⟨g1, d1, d2, d3, sc, fc⟩
          else none
        | _ => none
      | _ => none
    | _ => none
  | _ => none

/-- Value of a run of decimal digits. -/
def digitsToNat (l : List Char) : ℕ :=
  l.foldl (fun acc c => 10 * acc + (c.toNat - 48)) 0

/-- Python `str.strip()` on the sign group (which contains only `-`, `+`
and spaces). -/
def stripSpaces (l : List Char) : List Char :=
  ((l.dropWhile isSpaceChar).reverse.dropWhile isSpaceChar).reverse

/-- `float(posneg + weightStr)`: Python accepts at most one leading sign, so
a stripped sign group other than ``, `+` or `-` raises `ValueError`
(modelled as `none`). -/
def floatOfParts (sign intDigits fracDigits : List Char) : Option ℚ :=
  let mag : ℚ := (digitsToNat intDigits : ℚ) + (digitsToNat fracDigits : ℚ) / 10 ^ fracDigits.length
  match sign with
  | [] => some mag
  | ['+'] => some mag
  | ['-'] => some (-mag)
  | _ => none

/-- The parsing part of `Filler.read` applied to one inbound line: on a
match, decode and store the weight (with the `-99.99` `ValueError`
fallback), the raw pressure counts, the two switches, and latch the foot
switch when the latch is clear; a malformed line changes nothing. -/
def FillerState.read (s : FillerState) (line : List Char) : FillerState :=
  match matchFrame line with
  | none => s
  | some m =>
    let posneg := stripSpaces m.posneg
    let w : ℚ :=
      match floatOfParts posneg m.intDigits m.fracDigits with
      | some v => v
      | none => -9999/100
    let s := setWeight s w
    let s := { s with pressureRaw := (digitsToNat m.pressureDigits : ℤ) }
    let s := { s with stopswitch := m.stopChar == 'S' }
    let s := { s with footswitch := m.footChar == 'F' }
    if s.footswitchLatched == false then { s with footswitchLatched := s.footswitch } else s

/-! ## Configuration store (`Configuration.py`)

Dictionary keys are modelled as the `IntEnum` values of `CFG` (naturals,
`auto()` numbering from 1); a key outside the recognized set is any other
natural.  An item's value carries its type (`int` or `float`) in the
constructor. -/

/-- A stored value: Python `int` or `float` (decimals exact as rationals). -/
inductive CfgVal where
  | intVal (z : ℤ)
  | floatVal (q : ℚ)
  deriving DecidableEq, Repr

/-- `Configuration.ConfigurableItem`: display name, units, INI key, value,
and the `changed` flag set by the value setter. -/
structure ConfigurableItem where
  displayname : String
  units : String
  configname : String
  value : CfgVal
  changed : Bool
  deriving DecidableEq, Repr

/-- `Configuration.configurableItems`: the name-indexed dictionary. -/
structure ConfigStore where
  items : List (ℕ × ConfigurableItem)
  deriving DecidableEq, Repr

/-- The dictionary after `load` of a fresh file: all twelve recognized keys
carry their defaults from `DEFAULT_ITEMS[PRODUCT1]`. -/
def defaultStore : ConfigStore :=
  ⟨[(1, ⟨"Fill weight", "g", "fill_weight", .floatVal (2812/100), false⟩),
    (2, ⟨"Fill weight min", "g", "fill_weight_min", .floatVal (273/10), false⟩),
    (3, ⟨"Fill pressure (minimum)", "psi", "fill_pressure_minimum", .floatVal (185/10), false⟩),
    (4, ⟨"Fill initial dispense time", "ms", "fill_init_dispense_time", .intVal 1500, false⟩),
    (5, ⟨"Fill initial dispense minimum", "g", "fill_init_dispense_min", .floatVal 4, false⟩),
    (6, ⟨"Dispense offset (intercept)", "g", "dispense_offset", .floatVal (15/10), false⟩),
    (7, ⟨"Display pressure (maximum)", "psi", "pressure_display_max", .floatVal 20, false⟩),
    (8, ⟨"Purge time", "ms", "purge_time", .intVal 500, false⟩),
    (9, ⟨"Maximum purges per bottle", "ct", "max_purge", .intVal 5, false⟩),
    (10, ⟨"Tare tolerance", "g", "tare_tolerance", .floatVal (3/10), false⟩),
    (11, ⟨"Minimum bottle weight", "g", "min_bottle_weight", .floatVal 40, false⟩),
    (12, ⟨"Cleaning dispense time", "ms", "clean_dispense_time", .intVal 30000, false⟩)]⟩

/-- `Configuration.set(configurable, value, save=True)`.  The result is the
new store, whether `save()` ran (i.e. the INI file was written), and the
Python return value (`some false` for the `return False` taken on
`KeyError`, `none` for the implicit `None`).  The dictionary lookup raises
`KeyError` before any mutation, and that `return False` precedes the
`if save` block, so an unknown key changes nothing and writes nothing. -/
def ConfigStore.set (c : ConfigStore) (key : ℕ) (value : CfgVal) (save : Bool) :
    ConfigStore × Bool × Option Bool :=
  match c.items.find? (fun it => it.1 == key) with
  | none => (c, false, some false)
  | some _ =>
      let c' : ConfigStore :=
        ⟨c.items.map (fun it =>
          if it.1 == key then (it.1, { it.2 with value := value, changed := true }) else it)⟩
      (c', save, none)

/-! ## Filling sequencer (`philler.py`, class `FillingSequencer`)

The configuration values the sequencer reads through `config.getValue` are
collected in a `Config` record (INI keys as field names).  The sensor
snapshot and the countdown timer are sampled afresh on every tick, so they
enter the step function as an environment. -/

/-- The configuration values consulted by the sequencer, keyed by INI name. -/
structure Config where
  fill_weight : ℚ
  fill_weight_min : ℚ
  fill_pressure_minimum : ℚ
  fill_init_dispense_time : ℤ
  fill_init_dispense_min : ℚ
  dispense_offset : ℚ
  pressure_display_max : ℚ
  purge_time : ℤ
  max_purge : ℤ
  tare_tolerance : ℚ
  min_bottle_weight : ℚ
  clean_dispense_time : ℤ
  deriving DecidableEq, Repr

/-- The default values of `DEFAULT_ITEMS[PRODUCT1]`. -/
def defaultConfig : Config :=
  { fill_weight := 2812/100, fill_weight_min := 273/10, fill_pressure_minimum := 185/10,
    fill_init_dispense_time := 1500, fill_init_dispense_min := 4, dispense_offset := 15/10,
    pressure_display_max := 20, purge_time := 500, max_purge := 5,
    tare_tolerance := 3/10, min_bottle_weight := 40, clean_dispense_time := 30000 }

/-- `FillingSequencer.STATES`. -/
inductive STATES where
  | UNINIT | STANDBY | DIAGNOSTICS | SETUP
  | FILL_PREP1 | FILL_PREP2 | FILL_RESET_STOP | FILL_PRESSURIZE
  | FILL_PURGE_INIT | FILL_PURGE_SETUP | FILL_PURGE_WAIT
  | FILL_PURGE_CLEAR_WAIT | FILL_PURGE_RESET_WAIT
  | FILL_CLEAR_BOTTLE | FILL_LOAD_BOTTLE | FILL_LOAD_BOTTLE_WAIT
  | FILL_READY_SETUP | FILL_READY_WAIT
  | FILL_INIT_FILLING | FILL_INIT_FILLING_WAIT | FILL_INIT_FILLING_FAILED
  | FILL_FILLING_WAIT | FILL_FILLING_FAILED | FILL_TERMINATE
  | CLEAN | TERMINATE
  deriving DecidableEq, Repr

/-- `FillingSequencer.BUTTONS`. -/
inductive BUTTONS where
  | EXIT | ABORT
  | MAIN_ENTER_FILL | MAIN_ENTER_CLEAN | MAIN_ENTER_DIAGNOSTICS
  | FILL_NEXT
  | CLEAN_PRESSURE_ON | CLEAN_PRESSURE_OFF | CLEAN_DISPENSE
  | DIAG_PRESSURE_ON | DIAG_PRESSURE_OFF | DIAG_DISPENSE | DIAG_SETUP
  deriving DecidableEq, Repr

/-- `Filler.TASKS`: requests the sequencer can post to the hardware. -/
inductive TASKS where
  | ABORT | PRESSURIZE | VENT | DISPENSE
  deriving DecidableEq, Repr

/-- One entry of the hardware request queue: `(task, param)`. -/
structure Command where
  task : TASKS
  param : Option ℤ := none
  deriving DecidableEq, Repr

/-- The sequencer context: current state, pending button queue, and the
counters and recorded weights from `FillingSequencer.__init__`. -/
structure SeqCtx where
  state : STATES
  requests : List BUTTONS
  diagDispense : ℤ
  weightUnloaded : ℚ
  weightWithBottle : ℚ
  finalDispenseTime : ℤ
  purgeCount : ℤ
  filledCount : ℤ
  deriving DecidableEq, Repr

/-- The context built by `FillingSequencer.__init__` (the machine enters at
state 0, `UNINIT`). -/
def initialCtx : SeqCtx :=
  { state := .UNINIT, requests := [], diagDispense := 250, weightUnloaded := 0,
    weightWithBottle := 0, finalDispenseTime := 0, purgeCount := 0, filledCount := 0 }

/-- What the sequencer observes during one tick: the filler snapshot fields
it reads and the countdown timer's `expired` flag. -/
structure Env where
  weight : ℚ
  stable : Bool
  stopswitch : Bool
  footswitchLatched : Bool
  pressure : ℚ
  timerExpired : Bool
  deriving DecidableEq, Repr

/-- The effects of one tick: the successor context, the commands posted to
the hardware queue (in order), the writes to `footswitchLatched` and to the
raw `footswitch` field, and the `timer.start` calls (in milliseconds). -/
structure TickResult where
  ctx : SeqCtx
  posted : List Command := []
  latchWrites : List Bool := []
  footWrites : List Bool := []
  timerStarts : List ℤ := []
  deriving DecidableEq, Repr

/-- `FillingSequencer.getRequest`: pop the oldest button event, if any. -/
def getRequest (ctx : SeqCtx) : Option BUTTONS × SeqCtx :=
  match ctx.requests with
  | [] => (none, ctx)
  | r :: rest => (some r, { ctx with requests := rest })

/-- The `req in [self.BUTTONS.EXIT, self.BUTTONS.ABORT]` test shared by the
fill handlers. -/
def isAbortReq (req : Option BUTTONS) : Bool :=
  req == some BUTTONS.EXIT || req == some BUTTONS.ABORT

/-- `math.trunc`: truncation toward zero. -/
def mathTrunc (q : ℚ) : ℤ :=
  if 0 ≤ q then ⌊q⌋ else ⌈q⌉

/-- `process_UNINIT`. -/
def process_UNINIT (_cfg : Config) (ctx : SeqCtx) (_env : Env) : TickResult :=
  { ctx := { ctx with state := .STANDBY } }

/-- `process_STANDBY`. -/
def process_STANDBY (_cfg : Config) (ctx : SeqCtx) (_env : Env) : TickResult :=
  let (req, ctx) := getRequest ctx
  let ctx :=
    if req == some .MAIN_ENTER_FILL then { ctx with state := .FILL_PREP1 }
    else if req == some .MAIN_ENTER_CLEAN then { ctx with state := .CLEAN }
    else if req == some .MAIN_ENTER_DIAGNOSTICS then { ctx with state := .DIAGNOSTICS }
    else ctx
  { ctx := ctx }

/-- `process_DIAGNOSTICS`. -/
def process_DIAGNOSTICS (_cfg : Config) (ctx : SeqCtx) (_env : Env) : TickResult :=
  let (req, ctx) := getRequest ctx
  let ctx := if req == some .EXIT then { ctx with state := .STANDBY } else ctx
  let posted : List Command :=
    (if req == some .DIAG_PRESSURE_ON then [{ task := .PRESSURIZE }] else []) ++
    (if req == some .DIAG_PRESSURE_OFF then [{ task := .VENT }] else []) ++
    (if req == some .DIAG_DISPENSE then [{ task := .DISPENSE, param := some ctx.diagDispense }] else [])
  let ctx := if req == some .DIAG_SETUP then { ctx with state := .SETUP } else ctx
  { ctx := ctx, posted := posted }

/-- `process_SETUP`. -/
def process_SETUP (_cfg : Config) (ctx : SeqCtx) (_env : Env) : TickResult :=
  let (req, ctx) := getRequest ctx
  let ctx := if req == some .EXIT then { ctx with state := .DIAGNOSTICS } else ctx
  { ctx := ctx }

/-- `process_FILL_PREP1`.  The tared check drives only the progress
message, which is not modelled. -/
def process_FILL_PREP1 (_cfg : Config) (ctx : SeqCtx) (env : Env) : TickResult :=
  let (req, ctx) := getRequest ctx
  let ctx := if req == some .FILL_NEXT then { ctx with state := .FILL_PREP2 } else ctx
  let ctx := if isAbortReq req || env.stopswitch then { ctx with state := .FILL_TERMINATE } else ctx
  { ctx := ctx }

/-- `process_FILL_PREP2`. -/
def process_FILL_PREP2 (_cfg : Config) (ctx : SeqCtx) (env : Env) : TickResult :=
  let ctx := { ctx with weightUnloaded := env.weight }
  let (req, ctx) := getRequest ctx
  let ctx := if req == some .FILL_NEXT then { ctx with state := .FILL_RESET_STOP } else ctx
  let ctx := if isAbortReq req || env.stopswitch then { ctx with state := .FILL_TERMINATE } else ctx
  { ctx := ctx }

/-- `process_FILL_RESET_STOP`. -/
def process_FILL_RESET_STOP (_cfg : Config) (ctx : SeqCtx) (env : Env) : TickResult :=
  let ctx := if !env.stopswitch then { ctx with state := .FILL_PRESSURIZE } else ctx
  let (req, ctx) := getRequest ctx
  let ctx := if isAbortReq req || env.stopswitch then { ctx with state := .FILL_TERMINATE } else ctx
  { ctx := ctx }

/-- `process_FILL_PRESSURIZE`. -/
def process_FILL_PRESSURIZE (cfg : Config) (ctx : SeqCtx) (env : Env) : TickResult :=
  let posted : List Command := [{ task := .PRESSURIZE }]
  let ctx :=
    if env.pressure ≥ cfg.fill_pressure_minimum then { ctx with state := .FILL_PURGE_SETUP }
    else ctx
  let (req, ctx) := getRequest ctx
  let ctx := if isAbortReq req || env.stopswitch then { ctx with state := .FILL_TERMINATE } else ctx
  { ctx := ctx, posted := posted }

/-- `process_FILL_PURGE_INIT`: clear the foot-switch latch, zero the purge
count, advance unconditionally. -/
def process_FILL_PURGE_INIT (_cfg : Config) (ctx : SeqCtx) (_env : Env) : TickResult :=
  { ctx := { ctx with purgeCount := 0, state := .FILL_PURGE_SETUP }, latchWrites := [false] }

/-- `process_FILL_PURGE_SETUP`.  The max-purge branch returns early,
skipping the button handling of that tick. -/
def process_FILL_PURGE_SETUP (cfg : Config) (ctx : SeqCtx) (env : Env) : TickResult :=
  if env.footswitchLatched then
    if ctx.purgeCount ≥ cfg.max_purge then
      { ctx := { ctx with state := .FILL_PURGE_RESET_WAIT }, latchWrites := [false] }
    else
      let posted : List Command := [{ task := .DISPENSE, param := some cfg.purge_time }]
      let ctx := { ctx with purgeCount := ctx.purgeCount + 1, state := .FILL_PURGE_WAIT }
      let (req, ctx) := getRequest ctx
      let ctx := if req == some .FILL_NEXT then { ctx with state := .FILL_PURGE_CLEAR_WAIT } else ctx
      let ctx := if isAbortReq req || env.stopswitch then { ctx with state := .FILL_TERMINATE } else ctx
      { ctx := ctx, posted := posted, latchWrites := [false], timerStarts := [1000] }
  else
    let (req, ctx) := getRequest ctx
    let ctx := if req == some .FILL_NEXT then { ctx with state := .FILL_PURGE_CLEAR_WAIT } else ctx
    let ctx := if isAbortReq req || env.stopswitch then { ctx with state := .FILL_TERMINATE } else ctx
    { ctx := ctx }

/-- `process_FILL_PURGE_WAIT`. -/
def process_FILL_PURGE_WAIT (_cfg : Config) (ctx : SeqCtx) (env : Env) : TickResult :=
  let (ctx, latchWrites) :=
    if env.timerExpired then ({ ctx with state := .FILL_PURGE_SETUP }, [false]) else (ctx, [])
  let (req, ctx) := getRequest ctx
  let ctx := if isAbortReq req || env.stopswitch then { ctx with state := .FILL_TERMINATE } else ctx
  { ctx := ctx, latchWrites := latchWrites }

/-- `process_FILL_PURGE_CLEAR_WAIT`. -/
def process_FILL_PURGE_CLEAR_WAIT (cfg : Config) (ctx : SeqCtx) (env : Env) : TickResult :=
  let tared := cfg.tare_tolerance ≥ env.weight ∧ env.weight ≥ -cfg.tare_tolerance
  let ctx := if tared then { ctx with state := .FILL_LOAD_BOTTLE } else ctx
  let (req, ctx) := getRequest ctx
  let ctx := if isAbortReq req || env.stopswitch then { ctx with state := .FILL_TERMINATE } else ctx
  { ctx := ctx }

/-- `process_FILL_PURGE_RESET_WAIT`. -/
def process_FILL_PURGE_RESET_WAIT (cfg : Config) (ctx : SeqCtx) (env : Env) : TickResult :=
  let tared := cfg.tare_tolerance ≥ env.weight ∧ env.weight ≥ -cfg.tare_tolerance
  let ctx := if tared then { ctx with state := .FILL_PURGE_INIT } else ctx
  let (req, ctx) := getRequest ctx
  let ctx := if isAbortReq req || env.stopswitch then { ctx with state := .FILL_TERMINATE } else ctx
  { ctx := ctx }

/-- `process_FILL_CLEAR_BOTTLE`. -/
def process_FILL_CLEAR_BOTTLE (cfg : Config) (ctx : SeqCtx) (env : Env) : TickResult :=
  let tared := cfg.tare_tolerance ≥ env.weight ∧ env.weight ≥ -cfg.tare_tolerance
  let ctx := if tared then { ctx with state := .FILL_LOAD_BOTTLE } else ctx
  let (req, ctx) := getRequest ctx
  let ctx := if isAbortReq req || env.stopswitch then { ctx with state := .FILL_TERMINATE } else ctx
  { ctx := ctx }

/-- `process_FILL_LOAD_BOTTLE`.  `clearStable()` writes only the simulation
shadow. -/
def process_FILL_LOAD_BOTTLE (cfg : Config) (ctx : SeqCtx) (env : Env) : TickResult :=
  let ctx :=
    if env.weight ≥ cfg.min_bottle_weight then { ctx with state := .FILL_LOAD_BOTTLE_WAIT }
    else ctx
  let (req, ctx) := getRequest ctx
  let ctx := if isAbortReq req || env.stopswitch then { ctx with state := .FILL_TERMINATE } else ctx
  { ctx := ctx }

/-- `process_FILL_LOAD_BOTTLE_WAIT`. -/
def process_FILL_LOAD_BOTTLE_WAIT (cfg : Config) (ctx : SeqCtx) (env : Env) : TickResult :=
  let ctx :=
    if env.stable then
      if env.weight ≥ cfg.min_bottle_weight then
        { ctx with weightWithBottle := env.weight, state := .FILL_READY_SETUP }
      else ctx
    else ctx
  let (req, ctx) := getRequest ctx
  let ctx :=
    if req == some .FILL_NEXT then
      { ctx with weightWithBottle := env.weight, state := .FILL_READY_SETUP }
    else ctx
  let ctx := if isAbortReq req || env.stopswitch then { ctx with state := .FILL_TERMINATE } else ctx
  { ctx := ctx }

/-- `process_FILL_READY_SETUP`: note the source clears the raw
`footswitch` field here, not the latch. -/
def process_FILL_READY_SETUP (_cfg : Config) (ctx : SeqCtx) (env : Env) : TickResult :=
  let ctx := { ctx with state := .FILL_READY_WAIT }
  let (req, ctx) := getRequest ctx
  let ctx := if isAbortReq req || env.stopswitch then { ctx with state := .FILL_TERMINATE } else ctx
  { ctx := ctx, footWrites := [false] }

/-- `process_FILL_READY_WAIT`. -/
def process_FILL_READY_WAIT (_cfg : Config) (ctx : SeqCtx) (env : Env) : TickResult :=
  let (ctx, latchWrites) :=
    if env.footswitchLatched then ({ ctx with state := .FILL_INIT_FILLING }, [false]) else (ctx, [])
  let (req, ctx) := getRequest ctx
  let ctx := if isAbortReq req || env.stopswitch then { ctx with state := .FILL_TERMINATE } else ctx
  { ctx := ctx, latchWrites := latchWrites }

/-- `process_FILL_INIT_FILLING`: post the fixed first pulse, arm the timer,
advance unconditionally. -/
def process_FILL_INIT_FILLING (cfg : Config) (ctx : SeqCtx) (_env : Env) : TickResult :=
  let initFillTime := cfg.fill_init_dispense_time
  { ctx := { ctx with state := .FILL_INIT_FILLING_WAIT },
    posted := [{ task := .DISPENSE, param := some initFillTime }],
    timerStarts := [initFillTime] }

/-- `process_FILL_INIT_FILLING_WAIT`.  The insufficient-mass branch returns
early, skipping the button handling of that tick.  Division is rational and
total; the source divides floats and raises `ZeroDivisionError` when the
divisor is zero (`fill_init_dispense_time = 0` at the `slope` line, or the
first-pulse mass exactly equal to `dispense_offset` at the duration line),
aborting the handler before its trailing button check.  Theorems about this
path therefore carry hypotheses confining them to a nonzero divisor
(`dispense_offset < fill_init_dispense_min` suffices, as at the defaults). -/
def process_FILL_INIT_FILLING_WAIT (cfg : Config) (ctx : SeqCtx) (env : Env) : TickResult :=
  if env.timerExpired && env.stable then
    let initFillTime := cfg.fill_init_dispense_time
    let initFillMin := cfg.fill_init_dispense_min
    let fillOffset := cfg.dispense_offset
    let totalFillWeight := cfg.fill_weight
    let weightInitialFill := env.weight - ctx.weightWithBottle
    if weightInitialFill < initFillMin then
      { ctx := { ctx with state := .FILL_INIT_FILLING_FAILED } }
    else
      let slope := (weightInitialFill - fillOffset) / (initFillTime : ℚ)
      let weightRemaining := totalFillWeight - weightInitialFill
      let fdt := mathTrunc ((weightRemaining - fillOffset) / slope)
      let ctx := { ctx with finalDispenseTime := fdt, state := .FILL_FILLING_WAIT }
      let (req, ctx) := getRequest ctx
      let ctx := if isAbortReq req || env.stopswitch then { ctx with state := .FILL_TERMINATE } else ctx
      { ctx := ctx, posted := [{ task := .DISPENSE, param := some fdt }], timerStarts := [fdt] }
  else
    let (req, ctx) := getRequest ctx
    let ctx := if isAbortReq req || env.stopswitch then { ctx with state := .FILL_TERMINATE } else ctx
    { ctx := ctx }

/-- `process_FILL_INIT_FILLING_FAILED`. -/
def process_FILL_INIT_FILLING_FAILED (_cfg : Config) (ctx : SeqCtx) (env : Env) : TickResult :=
  let (req, ctx) := getRequest ctx
  let ctx := if req == some .FILL_NEXT then { ctx with state := .FILL_TERMINATE } else ctx
  let ctx := if isAbortReq req || env.stopswitch then { ctx with state := .FILL_TERMINATE } else ctx
  { ctx := ctx }

/-- `process_FILL_FILLING_WAIT`. -/
def process_FILL_FILLING_WAIT (cfg : Config) (ctx : SeqCtx) (env : Env) : TickResult :=
  let ctx :=
    if env.timerExpired && env.stable then
      let desiredFillWeight := cfg.fill_weight
      let actualWeight := env.weight - ctx.weightWithBottle
      if actualWeight ≥ desiredFillWeight then
        { ctx with filledCount := ctx.filledCount + 1, state := .FILL_CLEAR_BOTTLE }
      else
        { ctx with state := .FILL_FILLING_FAILED }
    else ctx
  let (req, ctx) := getRequest ctx
  let ctx := if isAbortReq req || env.stopswitch then { ctx with state := .FILL_TERMINATE } else ctx
  { ctx := ctx }

/-- `process_FILL_FILLING_FAILED`. -/
def process_FILL_FILLING_FAILED (_cfg : Config) (ctx : SeqCtx) (env : Env) : TickResult :=
  let ctx := if env.stopswitch then { ctx with state := .FILL_TERMINATE } else ctx
  let (req, ctx) := getRequest ctx
  let ctx := if isAbortReq req || env.stopswitch then { ctx with state := .FILL_TERMINATE } else ctx
  { ctx := ctx }

/-- `process_FILL_TERMINATE`: post `ABORT` then `VENT`, return to standby. -/
def process_FILL_TERMINATE (_cfg : Config) (ctx : SeqCtx) (_env : Env) : TickResult :=
  { ctx := { ctx with state := .STANDBY },
    posted := [{ task := .ABORT }, { task := .VENT }] }

/-- `process_CLEAN`. -/
def process_CLEAN (cfg : Config) (ctx : SeqCtx) (_env : Env) : TickResult :=
  let cleanDispenseTime := cfg.clean_dispense_time
  let (req, ctx) := getRequest ctx
  let (ctx, posted) :=
    if req == some .EXIT then
      ({ ctx with state := .STANDBY }, [{ task := TASKS.ABORT }, { task := TASKS.VENT }])
    else (ctx, ([] : List Command))
  let posted := posted ++ (if req == some .CLEAN_PRESSURE_ON then [{ task := TASKS.PRESSURIZE }] else [])
  let posted := posted ++ (if req == some .CLEAN_PRESSURE_OFF then [{ task := TASKS.VENT }] else [])
  let posted := posted ++
    (if req == some .CLEAN_DISPENSE then [{ task := TASKS.DISPENSE, param := some cleanDispenseTime }] else [])
  { ctx := ctx, posted := posted }

/-- `process_TERMINATE`. -/
def process_TERMINATE (_cfg : Config) (ctx : SeqCtx) (_env : Env) : TickResult :=
  { ctx := ctx }

/-- One 100 ms tick of the sequencer: `Sequencer._procstate` dispatches to
the handler of the current state and invokes it exactly once. -/
def stepTick (cfg : Config) (ctx : SeqCtx) (env : Env) : TickResult :=
  match ctx.state with
  | .UNINIT => process_UNINIT cfg ctx env
  | .STANDBY => process_STANDBY cfg ctx env
  | .DIAGNOSTICS => process_DIAGNOSTICS cfg ctx env
  | .SETUP => process_SETUP cfg ctx env
  | .FILL_PREP1 => process_FILL_PREP1 cfg ctx env
  | .FILL_PREP2 => process_FILL_PREP2 cfg ctx env
  | .FILL_RESET_STOP => process_FILL_RESET_STOP cfg ctx env
  | .FILL_PRESSURIZE => process_FILL_PRESSURIZE cfg ctx env
  | .FILL_PURGE_INIT => process_FILL_PURGE_INIT cfg ctx env
  | .FILL_PURGE_SETUP => process_FILL_PURGE_SETUP cfg ctx env
  | .FILL_PURGE_WAIT => process_FILL_PURGE_WAIT cfg ctx env
  | .FILL_PURGE_CLEAR_WAIT => process_FILL_PURGE_CLEAR_WAIT cfg ctx env
  | .FILL_PURGE_RESET_WAIT => process_FILL_PURGE_RESET_WAIT cfg ctx env
  | .FILL_CLEAR_BOTTLE => process_FILL_CLEAR_BOTTLE cfg ctx env
  | .FILL_LOAD_BOTTLE => process_FILL_LOAD_BOTTLE cfg ctx env
  | .FILL_LOAD_BOTTLE_WAIT => process_FILL_LOAD_BOTTLE_WAIT cfg ctx env
  | .FILL_READY_SETUP => process_FILL_READY_SETUP cfg ctx env
  | .FILL_READY_WAIT => process_FILL_READY_WAIT cfg ctx env
  | .FILL_INIT_FILLING => process_FILL_INIT_FILLING cfg ctx env
  | .FILL_INIT_FILLING_WAIT => process_FILL_INIT_FILLING_WAIT cfg ctx env
  | .FILL_INIT_FILLING_FAILED => process_FILL_INIT_FILLING_FAILED cfg ctx env
  | .FILL_FILLING_WAIT => process_FILL_FILLING_WAIT cfg ctx env
  | .FILL_FILLING_FAILED => process_FILL_FILLING_FAILED cfg ctx env
  | .FILL_TERMINATE => process_FILL_TERMINATE cfg ctx env
  | .CLEAN => process_CLEAN cfg ctx env
  | .TERMINATE => process_TERMINATE cfg ctx env

/-- The sequencer contexts reachable from startup under a fixed
configuration: ticks with an arbitrary environment, interleaved with the UI
enqueuing arbitrary button events. -/
inductive Reach (cfg : Config) : SeqCtx → Prop where
  | init : Reach cfg initialCtx
  | tick (ctx : SeqCtx) (env : Env) : Reach cfg ctx → Reach cfg (stepTick cfg ctx env).ctx
  | button (ctx : SeqCtx) (b : BUTTONS) : Reach cfg ctx →
      Reach cfg { ctx with requests := ctx.requests ++ [b] }

/-- The `FILL_*` states of the machine. -/
def isFillState : STATES → Bool
  | .FILL_PREP1 | .FILL_PREP2 | .FILL_RESET_STOP | .FILL_PRESSURIZE
  | .FILL_PURGE_INIT | .FILL_PURGE_SETUP | .FILL_PURGE_WAIT
  | .FILL_PURGE_CLEAR_WAIT | .FILL_PURGE_RESET_WAIT
  | .FILL_CLEAR_BOTTLE | .FILL_LOAD_BOTTLE | .FILL_LOAD_BOTTLE_WAIT
  | .FILL_READY_SETUP | .FILL_READY_WAIT
  | .FILL_INIT_FILLING | .FILL_INIT_FILLING_WAIT | .FILL_INIT_FILLING_FAILED
  | .FILL_FILLING_WAIT | .FILL_FILLING_FAILED | .FILL_TERMINATE => true
  | _ => false

/-! ## Concrete frames used in the theorems below -/

/-- A well-formed frame carrying 10-bit-overrange pressure counts. -/
def frame2048 : List Char := "+    0.00g  ;2048;s;f".toList

/-- A well-formed frame with the foot switch pressed. -/
def frameFoot : List Char := "+    0.00g  ;194;s;F".toList

/-- A line that does not match the frame pattern. -/
def badLine : List Char := "hello world".toList

/-- Snapshot states reached by feeding `frameFoot` twice with a sequencer
acknowledgment of the latch in between. -/
def footOnce : FillerState := initFiller.read frameFoot

/-- `footOnce` after the sequencer acknowledges the latch
(`filler.footswitchLatched = False`); the raw pedal level is still high. -/
def footAcked : FillerState := { footOnce with footswitchLatched := false }

/-- `footAcked` after a further pedal-down frame (no rising edge of the raw
input: the level was already high). -/
def footTwice : FillerState := footAcked.read frameFoot

/-- `getRequest` pops the head of the button queue. -/
theorem getRequest_eq (ctx : SeqCtx) :
    getRequest ctx = (ctx.requests.head?, { ctx with requests := ctx.requests.tail }) := by
  rcases ctx with ⟨st, reqs, dd, wu, wb, fdt, pc, fc⟩
  cases reqs <;> rfl

/-! ## C4 — pressure conversion at the characterisation points -/

/-- Claim C4 as stated is false: with `pressure_raw = 885` the published
`pressure_psi` is `30·708.0528/707.7888 ≈ 30.0112`, which is NOT within
0.01 of 30.0 (the characterisation counts are 176.9472 and 884.736, not
the rounded 177 and 885). -/
theorem C4_counterexample :
    ¬ (|({ initFiller with pressureRaw := 885 } : FillerState).pressure - 30| ≤ 1/100) := by
  norm_num [FillerState.pressure, countsToPSI, initFiller, abs_le]

/-- Claim C4 (amended): the pressure conversion applies the linear map
derived from the fixed transducer characterisation; for `pressure_raw =
885` the published `pressure_psi` lies within 0.012 of 30.0, and for
`pressure_raw = 177` it lies within 0.01 of 0.0. -/
theorem C4_amended :
    |({ initFiller with pressureRaw := 885 } : FillerState).pressure - 30| ≤ 12/1000 ∧
    |({ initFiller with pressureRaw := 177 } : FillerState).pressure - 0| ≤ 1/100 := by
  constructor <;> norm_num [FillerState.pressure, countsToPSI, initFiller, abs_le]

/-! ## C5 — range of the stored raw pressure counts -/

/-- Claim C5 as stated is false: the frame `"+    0.00g  ;2048;s;f"` is
ingested without clipping, so the published snapshot stores
`pressure_raw = 2048 > 1023`. -/
theorem C5_counterexample :
    ¬ ((initFiller.read frame2048).pressureRaw ≤ 1023) := by decide

/-- Claim C5 (amended): the stored `pressure_raw` is never negative (the
frame field is a digit run) but is NOT clipped on ingress and may exceed
1023; clipping to [0, 1023] happens at readout, inside the `pressure`
property, before the counts-to-psi conversion. -/
theorem C5_amended :
    (∀ (s : FillerState) (line : List Char),
      0 ≤ s.pressureRaw → 0 ≤ (s.read line).pressureRaw) ∧
    (∀ s : FillerState,
      s.pressure = countsToPSI ((clipRaw s.pressureRaw : ℤ) : ℚ) ∧
      0 ≤ clipRaw s.pressureRaw ∧ clipRaw s.pressureRaw ≤ 1023) := by
  constructor
  · intro s line h
    unfold FillerState.read
    cases hm : matchFrame line with
    | none => exact h
    | some m =>
      simp only []
      split <;> simp
  · intro s
    have hclip : ∀ p : ℤ,
        (if (if p > 1023 then (1023 : ℤ) else p) < 0 then 0
         else if p > 1023 then 1023 else p) = clipRaw p := by
      intro p; unfold clipRaw; split_ifs <;> omega
    refine ⟨?_, ?_, ?_⟩
    · simp only [FillerState.pressure]
      rw [hclip]
    · unfold clipRaw; split_ifs <;> omega
    · unfold clipRaw; split_ifs <;> omega

/-- Witness for C5 (amended), instantiated at the initial snapshot and the
overrange frame. -/
theorem C5_amended_witness :
    0 ≤ initFiller.pressureRaw ∧ 0 ≤ (initFiller.read frame2048).pressureRaw :=
  ⟨by decide, C5_amended.1 initFiller frame2048 (by decide)⟩

/-! ## C6 — foot-switch latch transitions -/

/-- Claim C6 as stated is false: the latch is level-triggered, not
edge-triggered.  After a pedal-down frame and a sequencer acknowledgment,
a second pedal-down frame re-sets the latch 0→1 although the raw
`foot_switch` input shows no rising edge (it was already high). -/
theorem C6_counterexample :
    footAcked.footswitch = true ∧ footAcked.footswitchLatched = false ∧
    footTwice.footswitch = true ∧ footTwice.footswitchLatched = true := by decide

/-- Claim C6 (amended): the hardware reader sets `foot_switch_latched` 0→1
whenever the latch is clear and the parsed frame reports the pedal down
(level-triggered) — the third conjunct fixes the new latch value, for every
clear-latch state and every matched frame, to exactly the parsed pedal
level; the reader never clears a set latch, so 1→0 happens only through
the external (sequencer) acknowledgment write. -/
theorem C6_amended (s : FillerState) (line : List Char) :
    (s.footswitchLatched = true → (s.read line).footswitchLatched = true) ∧
    ((s.read line).footswitchLatched = true →
      s.footswitchLatched = true ∨ (s.read line).footswitch = true) ∧
    (∀ m, matchFrame line = some m → s.footswitchLatched = false →
      (s.read line).footswitchLatched = (m.footChar == 'F')) := by
  cases hm : matchFrame line with
  | none =>
    simp only [FillerState.read, hm]
    exact ⟨fun h => h, fun h => Or.inl h, fun m hsome => absurd hsome (by simp)⟩
  | some m =>
    cases hl : s.footswitchLatched with
    | true =>
      refine ⟨?_, ?_, ?_⟩
      · simp [FillerState.read, hm, setWeight, hl]
      · simp [FillerState.read, hm, setWeight, hl]
      · intro m' _ hf
        simp at hf
    | false =>
      refine ⟨?_, ?_, ?_⟩
      · simp [hl]
      · simp [FillerState.read, hm, setWeight, hl]
      · intro m' hm' _
        injection hm' with hmm
        subst hmm
        simp [FillerState.read, hm, setWeight, hl]

/-- The captured groups of `frameFoot`. -/
def frameFootParsed : ParsedFrame :=
  ⟨"+    ".toList, "0".toList, "00".toList, "194".toList, 's', 'F'⟩

/-- Witness for C6 (amended): after the acknowledgment (latch clear, pedal
still held) the pedal-down frame sets the latch — via the universal
positive direction of the theorem — and the set latch implies the parsed
pedal level was high. -/
theorem C6_amended_witness :
    matchFrame frameFoot = some frameFootParsed ∧
    footAcked.footswitchLatched = false ∧
    footTwice.footswitchLatched = (frameFootParsed.footChar == 'F') ∧
    (footAcked.footswitchLatched = true ∨ footTwice.footswitch = true) :=
  ⟨by decide, by decide,
   (C6_amended footAcked frameFoot).2.2 frameFootParsed (by decide) (by decide),
   (C6_amended footAcked frameFoot).2.1 (by decide)⟩

/-! ## C7 — the stability detector -/

/-- Claim C7: with fewer than 3 samples the stability read is vacuously
true; with 3 or more samples it is true iff every sample in the history
lies within 0.1 g of the most recent sample. -/
theorem C7_stable (s : FillerState) :
    (s.weights.length < 3 → s.stable = true) ∧
    (∀ latest, s.weights.getLast? = some latest → 3 ≤ s.weights.length →
      (s.stable = true ↔ ∀ w ∈ s.weights, |w - latest| ≤ 1/10)) := by
  constructor
  · intro h
    unfold FillerState.stable
    rw [if_neg (by omega)]
  · intro latest hlast hlen
    have hne : s.weights ≠ [] := by
      intro h; rw [h] at hlast; simp at hlast
    have hgl : s.weights.getLast hne = latest := by
      have := List.getLast?_eq_getLast s.weights hne
      rw [this] at hlast
      exact Option.some_injective _ hlast
    unfold FillerState.stable
    rw [if_pos (by omega), hlast]
    rw [List.all_eq_true]
    constructor
    · intro h w hw
      rw [← List.dropLast_append_getLast hne] at hw
      rcases List.mem_append.mp hw with h1 | h2
      · have := h w h1
        simp only [Bool.and_eq_true, Bool.not_eq_true', decide_eq_false_iff_not, not_lt] at this
        rw [abs_sub_le_iff]
        constructor <;> linarith [this.1, this.2]
      · rw [List.mem_singleton.mp h2, hgl]
        simp
    · intro h w hw
      have hmem : w ∈ s.weights := List.dropLast_subset _ hw
      have := h w hmem
      rw [abs_sub_le_iff] at this
      simp only [Bool.and_eq_true, Bool.not_eq_true', decide_eq_false_iff_not, not_lt]
      constructor <;> linarith [this.1, this.2]

/-- Witness for C7: a three-sample history whose samples all lie within
0.1 g of the newest one reads stable. -/
theorem C7_stable_witness :
    ({ initFiller with weights := [1, 21/20, 1] } : FillerState).stable = true :=
  ((C7_stable { initFiller with weights := [1, 21/20, 1] }).2 1 (by rfl) (by simp)).mpr
    (by intro w hw; simp only [List.mem_cons, List.not_mem_nil, or_false] at hw
        rcases hw with h | h | h <;> subst h <;> norm_num [abs_le])

/-! ## C9 — malformed lines leave the snapshot unchanged -/

/-- Claim C9: an inbound line that does not match the frame pattern leaves
every snapshot field unchanged (the whole state is unchanged). -/
theorem C9_malformed (s : FillerState) (line : List Char)
    (h : matchFrame line = none) : s.read line = s := by
  unfold FillerState.read
  rw [h]

/-- Witness for C9: a concrete garbage line leaves the initial snapshot
unchanged. -/
theorem C9_malformed_witness :
    matchFrame badLine = none ∧ initFiller.read badLine = initFiller :=
  ⟨by decide, C9_malformed initFiller badLine (by decide)⟩

/-! ## C10 — setting an unknown configuration key -/

/-- Claim C10: `Configuration.set` with a key outside the recognized set
returns `False` (the `KeyError` branch), leaves every stored item
unchanged, and does not write the configuration file even when `save` is
true. -/
theorem C10_set_unknown (c : ConfigStore) (key : ℕ) (v : CfgVal) (save : Bool)
    (h : c.items.find? (fun it => it.1 == key) = none) :
    c.set key v save = (c, false, some false) := by
  unfold ConfigStore.set
  rw [h]

/-- Witness for C10: key 99 is not in the loaded store; `set` with
`save = true` changes nothing, writes nothing, returns `False`. -/
theorem C10_set_unknown_witness :
    defaultStore.items.find? (fun it => it.1 == 99) = none ∧
    defaultStore.set 99 (CfgVal.intVal 0) true = (defaultStore, false, some false) :=
  ⟨by rfl, C10_set_unknown defaultStore 99 (CfgVal.intVal 0) true (by rfl)⟩

/-! ## C2 — adaptive second-pulse computation -/

/-- Claim C2: when the `FILL_INIT_FILLING_WAIT` timer has expired, the
scale is stable, and the first-pulse mass `d1 = weight − weight_with_bottle`
reaches `fill_init_dispense_min`, the sequencer posts
`Dispense(T2)` with `T2 = trunc((fill_weight − d1 − offset)/((d1 −
offset)/T1))` and moves to `FILL_FILLING_WAIT` (provided no abort input
lands on the same tick).  `dispense_offset < fill_init_dispense_min` keeps
the flow-rate divisor positive, as with the default parameters. -/
theorem C2_adaptive (cfg : Config) (ctx : SeqCtx) (env : Env)
    (_hoff : cfg.dispense_offset < cfg.fill_init_dispense_min)
    (hstate : ctx.state = STATES.FILL_INIT_FILLING_WAIT)
    (ht : env.timerExpired = true) (hs : env.stable = true)
    (hd : env.weight - ctx.weightWithBottle ≥ cfg.fill_init_dispense_min)
    (hreq : isAbortReq ctx.requests.head? = false) (hstop : env.stopswitch = false) :
    (stepTick cfg ctx env).posted =
      [{ task := TASKS.DISPENSE,
         param := some (mathTrunc
           ((cfg.fill_weight - (env.weight - ctx.weightWithBottle) - cfg.dispense_offset) /
            (((env.weight - ctx.weightWithBottle) - cfg.dispense_offset) /
             (cfg.fill_init_dispense_time : ℚ)))) }] ∧
    (stepTick cfg ctx env).ctx.state = STATES.FILL_FILLING_WAIT := by
  have hlt : ¬ (env.weight - ctx.weightWithBottle < cfg.fill_init_dispense_min) := not_lt.mpr hd
  simp only [stepTick, hstate, process_FILL_INIT_FILLING_WAIT, ht, hs, Bool.and_self,
    if_pos, getRequest_eq, if_neg hlt, hreq, hstop, Bool.or_self, Bool.false_or,
    Bool.or_false, if_neg, ite_false]
  refine ⟨?_, ?_⟩ <;> trivial

/-- Concrete contexts for the C2 scenario: the operator filled with
`weight_with_bottle = 50.00` and the scale reports `56.50` after the first
pulse. -/
def c2ctx : SeqCtx :=
  { initialCtx with state := .FILL_INIT_FILLING_WAIT, weightWithBottle := 50 }

/-- Environment for the C2 scenario. -/
def c2env : Env :=
  { weight := 565/10, stable := true, stopswitch := false, footswitchLatched := false,
    pressure := 0, timerExpired := true }

/-- Witness for C2, at the default parameters: `d1 = 6.50`, so
`T2 = trunc((28.12 − 6.50 − 1.5)/((6.50 − 1.5)/1500)) = trunc(6036.0)` and
the sequencer posts `Dispense(6036)`. -/
theorem C2_adaptive_witness :
    (stepTick defaultConfig c2ctx c2env).posted =
      [{ task := TASKS.DISPENSE, param := some 6036 }] ∧
    (stepTick defaultConfig c2ctx c2env).ctx.state = STATES.FILL_FILLING_WAIT := by
  have h := C2_adaptive defaultConfig c2ctx c2env
    (by norm_num [defaultConfig]) (by rfl) (by rfl) (by rfl)
    (by norm_num [defaultConfig, c2ctx, c2env, initialCtx]) (by rfl) (by rfl)
  rcases h with ⟨hp, hst⟩
  refine ⟨?_, hst⟩
  rw [hp]
  have : mathTrunc ((defaultConfig.fill_weight - (c2env.weight - c2ctx.weightWithBottle) -
      defaultConfig.dispense_offset) /
      (((c2env.weight - c2ctx.weightWithBottle) - defaultConfig.dispense_offset) /
       (defaultConfig.fill_init_dispense_time : ℚ))) = 6036 := by
    norm_num [defaultConfig, c2ctx, c2env, initialCtx, mathTrunc]
  rw [this]

/-! ## C3 — pressurize does not pass through FILL_PURGE_INIT -/

/-- Context refuting C3: `FILL_PRESSURIZE` with a stale `purge_count = 3`
(reachable: `FILL_TERMINATE` does not reset `purgeCount`, so a fill session
started after an aborted one still carries the old count). -/
def c3ctx : SeqCtx := { initialCtx with state := .FILL_PRESSURIZE, purgeCount := 3 }

/-- Environment for the C3 scenario: pressure is above the 18.5 psi
minimum, nothing else is asserted. -/
def c3env : Env :=
  { weight := 0, stable := false, stopswitch := false, footswitchLatched := false,
    pressure := 20, timerExpired := false }

/-- Claim C3 as stated is false: once `pressure ≥ fill_pressure_minimum`,
`FILL_PRESSURIZE` transitions directly to `FILL_PURGE_SETUP`, not via
`FILL_PURGE_INIT`; the stale `purge_count` is not zeroed and the
foot-switch latch is not cleared. -/
theorem C3_counterexample :
    (stepTick defaultConfig c3ctx c3env).ctx.state = STATES.FILL_PURGE_SETUP ∧
    (stepTick defaultConfig c3ctx c3env).ctx.purgeCount = 3 ∧
    (stepTick defaultConfig c3ctx c3env).latchWrites = [] := by
  refine ⟨?_, ?_, ?_⟩ <;>
    norm_num [stepTick, c3ctx, c3env, process_FILL_PRESSURIZE, getRequest_eq,
      initialCtx, defaultConfig, isAbortReq]

/-- Claim C3 (amended): `FILL_PRESSURIZE` posts `Pressurize` on every tick
and, once `pressure_psi ≥ fill_pressure_minimum`, transitions directly to
`FILL_PURGE_SETUP` (leaving `purge_count` and the latch untouched);
`FILL_PURGE_INIT` — reached only from `FILL_PURGE_RESET_WAIT` — is the
state that clears the foot-switch latch and zeroes `purge_count`. -/
theorem C3_amended (cfg : Config) (ctx : SeqCtx) (env : Env) :
    (ctx.state = STATES.FILL_PRESSURIZE →
      (stepTick cfg ctx env).posted = [{ task := TASKS.PRESSURIZE }] ∧
      (env.pressure ≥ cfg.fill_pressure_minimum →
        isAbortReq ctx.requests.head? = false → env.stopswitch = false →
        (stepTick cfg ctx env).ctx.state = STATES.FILL_PURGE_SETUP ∧
        (stepTick cfg ctx env).ctx.purgeCount = ctx.purgeCount ∧
        (stepTick cfg ctx env).latchWrites = [])) ∧
    (ctx.state = STATES.FILL_PURGE_INIT →
      (stepTick cfg ctx env).ctx.state = STATES.FILL_PURGE_SETUP ∧
      (stepTick cfg ctx env).ctx.purgeCount = 0 ∧
      (stepTick cfg ctx env).latchWrites = [false]) := by
  constructor
  · intro hstate
    simp only [stepTick, hstate, process_FILL_PRESSURIZE, getRequest_eq]
    constructor
    · trivial
    · intro hp hreq hstop
      simp only [ge_iff_le, if_pos hp, hreq, hstop, Bool.or_self, if_neg, ite_false]
      refine ⟨?_, ?_, ?_⟩ <;> trivial
  · intro hstate
    simp only [stepTick, hstate, process_FILL_PURGE_INIT]
    refine ⟨?_, ?_, ?_⟩ <;> trivial

/-- Witness for C3 (amended), at the concrete pressurize scenario. -/
theorem C3_amended_witness :
    (stepTick defaultConfig c3ctx c3env).posted = [{ task := TASKS.PRESSURIZE }] ∧
    (stepTick defaultConfig c3ctx c3env).ctx.state = STATES.FILL_PURGE_SETUP :=
  ⟨((C3_amended defaultConfig c3ctx c3env).1 rfl).1,
   (((C3_amended defaultConfig c3ctx c3env).1 rfl).2
      (by norm_num [defaultConfig, c3env]) (by rfl) (by rfl)).1⟩

/-! ## C1 — universal abort in the fill states -/

/-- Context refuting C1: `FILL_PURGE_INIT` with an `Abort` event pending. -/
def c1ctx : SeqCtx := { initialCtx with state := .FILL_PURGE_INIT, requests := [.ABORT] }

/-- Environment refuting C1: the stop switch is engaged on that tick. -/
def c1env : Env :=
  { weight := 0, stable := false, stopswitch := true, footswitchLatched := false,
    pressure := 0, timerExpired := false }

/-- Claim C1 as stated is false: `FILL_PURGE_INIT` is a `FILL_*` state, yet
with an `Abort` event pending AND the stop switch engaged its tick
transitions to `FILL_PURGE_SETUP`, not `FILL_TERMINATE` — the handler
neither consumes button events nor reads the stop switch (the same holds
for `FILL_INIT_FILLING`). -/
theorem C1_counterexample :
    isFillState c1ctx.state = true ∧ c1env.stopswitch = true ∧
    c1ctx.requests.head? = some BUTTONS.ABORT ∧
    (stepTick defaultConfig c1ctx c1env).ctx.state = STATES.FILL_PURGE_SETUP := by
  refine ⟨rfl, rfl, rfl, rfl⟩

/-- Claim C1 (amended): in every `FILL_*` state except `FILL_PURGE_INIT`,
`FILL_INIT_FILLING` and `FILL_TERMINATE` itself (whose handlers never
consume events or read the stop switch), and excluding the early-return
paths — `FILL_PURGE_SETUP` with the pedal latched and `purge_count ≥
max_purge`, and `FILL_INIT_FILLING_WAIT` with the timer expired, the scale
stable and the first-pulse mass short of `fill_init_dispense_min` — and
excluding the `ZeroDivisionError` path of `FILL_INIT_FILLING_WAIT` (when
the dispense computation runs with `fill_init_dispense_time = 0`, or with
the first-pulse mass exactly equal to `dispense_offset`, the source raises
at the division and never reaches its abort check; the rational model is
total there), an `Exit`/`Abort` event at the head of the queue or
`stop_switch == true` on that tick transitions directly to
`FILL_TERMINATE`; the `FILL_TERMINATE` handler posts `Abort` then `Vent`
and returns to `STANDBY`. -/
theorem C1_amended (cfg : Config) (ctx : SeqCtx) (env : Env) :
    (isFillState ctx.state = true →
     ctx.state ≠ STATES.FILL_PURGE_INIT →
     ctx.state ≠ STATES.FILL_INIT_FILLING →
     ctx.state ≠ STATES.FILL_TERMINATE →
     (ctx.state = STATES.FILL_PURGE_SETUP →
       ¬(env.footswitchLatched = true ∧ cfg.max_purge ≤ ctx.purgeCount)) →
     (ctx.state = STATES.FILL_INIT_FILLING_WAIT →
       ¬(env.timerExpired = true ∧ env.stable = true ∧
         env.weight - ctx.weightWithBottle < cfg.fill_init_dispense_min)) →
     (ctx.state = STATES.FILL_INIT_FILLING_WAIT →
       env.timerExpired = true → env.stable = true →
       cfg.fill_init_dispense_min ≤ env.weight - ctx.weightWithBottle →
       cfg.fill_init_dispense_time ≠ 0 ∧
       env.weight - ctx.weightWithBottle ≠ cfg.dispense_offset) →
     (isAbortReq ctx.requests.head? = true ∨ env.stopswitch = true) →
     (stepTick cfg ctx env).ctx.state = STATES.FILL_TERMINATE) ∧
    (ctx.state = STATES.FILL_TERMINATE →
     (stepTick cfg ctx env).ctx.state = STATES.STANDBY ∧
     (stepTick cfg ctx env).posted = [{ task := TASKS.ABORT }, { task := TASKS.VENT }]) := by
  constructor
  · intro hfill h1 h2 h3 hps hifw _hdiv habort
    have hcond : (isAbortReq ctx.requests.head? || env.stopswitch) = true := by
      rcases habort with h | h <;> simp [h]
    cases hst : ctx.state
    case UNINIT => rw [hst] at hfill; exact absurd hfill (by decide)
    case STANDBY => rw [hst] at hfill; exact absurd hfill (by decide)
    case DIAGNOSTICS => rw [hst] at hfill; exact absurd hfill (by decide)
    case SETUP => rw [hst] at hfill; exact absurd hfill (by decide)
    case CLEAN => rw [hst] at hfill; exact absurd hfill (by decide)
    case TERMINATE => rw [hst] at hfill; exact absurd hfill (by decide)
    case FILL_PURGE_INIT => exact absurd hst h1
    case FILL_INIT_FILLING => exact absurd hst h2
    case FILL_TERMINATE => exact absurd hst h3
    case FILL_PREP1 =>
      simp [stepTick, hst, process_FILL_PREP1, getRequest_eq, hcond, habort,
        apply_ite SeqCtx.requests, ite_self]
    case FILL_PREP2 =>
      simp [stepTick, hst, process_FILL_PREP2, getRequest_eq, hcond, habort,
        apply_ite SeqCtx.requests, ite_self]
    case FILL_RESET_STOP =>
      simp [stepTick, hst, process_FILL_RESET_STOP, getRequest_eq, hcond, habort,
        apply_ite SeqCtx.requests, ite_self]
    case FILL_PRESSURIZE =>
      simp [stepTick, hst, process_FILL_PRESSURIZE, getRequest_eq, hcond, habort,
        apply_ite SeqCtx.requests, ite_self]
    case FILL_PURGE_SETUP =>
      cases hfs : env.footswitchLatched with
      | false =>
        simp [stepTick, hst, process_FILL_PURGE_SETUP, hfs, getRequest_eq, hcond, habort,
          apply_ite SeqCtx.requests, ite_self]
      | true =>
        have hlt : ¬(ctx.purgeCount ≥ cfg.max_purge) := fun hge => hps hst ⟨hfs, hge⟩
        simp [stepTick, hst, process_FILL_PURGE_SETUP, hfs, hlt, getRequest_eq, hcond, habort,
          apply_ite SeqCtx.requests, ite_self]
    case FILL_PURGE_WAIT =>
      cases hte : env.timerExpired <;>
        simp [stepTick, hst, process_FILL_PURGE_WAIT, hte, getRequest_eq, hcond, habort,
          apply_ite SeqCtx.requests, ite_self]
    case FILL_PURGE_CLEAR_WAIT =>
      simp [stepTick, hst, process_FILL_PURGE_CLEAR_WAIT, getRequest_eq, hcond, habort,
        apply_ite SeqCtx.requests, ite_self]
    case FILL_PURGE_RESET_WAIT =>
      simp [stepTick, hst, process_FILL_PURGE_RESET_WAIT, getRequest_eq, hcond, habort,
        apply_ite SeqCtx.requests, ite_self]
    case FILL_CLEAR_BOTTLE =>
      simp [stepTick, hst, process_FILL_CLEAR_BOTTLE, getRequest_eq, hcond, habort,
        apply_ite SeqCtx.requests, ite_self]
    case FILL_LOAD_BOTTLE =>
      simp [stepTick, hst, process_FILL_LOAD_BOTTLE, getRequest_eq, hcond, habort,
        apply_ite SeqCtx.requests, ite_self]
    case FILL_LOAD_BOTTLE_WAIT =>
      simp [stepTick, hst, process_FILL_LOAD_BOTTLE_WAIT, getRequest_eq, hcond, habort,
        apply_ite SeqCtx.requests, ite_self]
    case FILL_READY_SETUP =>
      simp [stepTick, hst, process_FILL_READY_SETUP, getRequest_eq, hcond, habort,
        apply_ite SeqCtx.requests, ite_self]
    case FILL_READY_WAIT =>
      cases hfsw : env.footswitchLatched <;>
        simp [stepTick, hst, process_FILL_READY_WAIT, hfsw, getRequest_eq, hcond, habort,
          apply_ite SeqCtx.requests, ite_self]
    case FILL_INIT_FILLING_WAIT =>
      cases hts : (env.timerExpired && env.stable) with
      | false =>
        simp [stepTick, hst, process_FILL_INIT_FILLING_WAIT, hts, getRequest_eq, hcond, habort,
          apply_ite SeqCtx.requests, ite_self]
      | true =>
        rw [Bool.and_eq_true] at hts
        have hnl : ¬(env.weight - ctx.weightWithBottle < cfg.fill_init_dispense_min) :=
          fun hl => hifw hst ⟨hts.1, hts.2, hl⟩
        simp [stepTick, hst, process_FILL_INIT_FILLING_WAIT, hts.1, hts.2, hnl,
          getRequest_eq, hcond, habort, apply_ite SeqCtx.requests, ite_self]
    case FILL_INIT_FILLING_FAILED =>
      simp [stepTick, hst, process_FILL_INIT_FILLING_FAILED, getRequest_eq, hcond, habort,
        apply_ite SeqCtx.requests, ite_self]
    case FILL_FILLING_WAIT =>
      simp [stepTick, hst, process_FILL_FILLING_WAIT, getRequest_eq, hcond, habort,
        apply_ite SeqCtx.requests, ite_self]
    case FILL_FILLING_FAILED =>
      simp [stepTick, hst, process_FILL_FILLING_FAILED, getRequest_eq, hcond, habort,
        apply_ite SeqCtx.requests, ite_self]
  · intro hst
    simp only [stepTick, hst, process_FILL_TERMINATE]
    refine ⟨?_, ?_⟩ <;> trivial

/-- Context for the C1 witness: `FILL_PREP1` with an `Abort` pending. -/
def c1wctx : SeqCtx := { initialCtx with state := .FILL_PREP1, requests := [.ABORT] }

/-- Context for the C1 witness, terminating leg. -/
def c1tctx : SeqCtx := { initialCtx with state := .FILL_TERMINATE }

/-- Environment for the C1 witness: nothing asserted. -/
def c1wenv : Env :=
  { weight := 0, stable := false, stopswitch := false, footswitchLatched := false,
    pressure := 0, timerExpired := false }

/-- Witness for C1 (amended): an `Abort` pending in `FILL_PREP1` reaches
`FILL_TERMINATE` in one tick, and the `FILL_TERMINATE` tick posts `Abort`
then `Vent` and lands in `STANDBY`. -/
theorem C1_amended_witness :
    (stepTick defaultConfig c1wctx c1wenv).ctx.state = STATES.FILL_TERMINATE ∧
    (stepTick defaultConfig c1tctx c1wenv).ctx.state = STATES.STANDBY ∧
    (stepTick defaultConfig c1tctx c1wenv).posted =
      [{ task := TASKS.ABORT }, { task := TASKS.VENT }] :=
  ⟨(C1_amended defaultConfig c1wctx c1wenv).1 rfl (by decide) (by decide) (by decide)
      (fun h => absurd h (by decide)) (fun h => absurd h (by decide))
      (fun h => absurd h (by decide)) (Or.inl rfl),
   ((C1_amended defaultConfig c1tctx c1wenv).2 rfl).1,
   ((C1_amended defaultConfig c1tctx c1wenv).2 rfl).2⟩

/-! ## C8 — the purge counter never exceeds the configured maximum -/

/-- How one tick can change `purgeCount`: it is kept, zeroed
(`FILL_PURGE_INIT`), or incremented under the guard
`purgeCount < max_purge` (`FILL_PURGE_SETUP`). -/
theorem stepTick_purgeCount (cfg : Config) (ctx : SeqCtx) (env : Env) :
    (stepTick cfg ctx env).ctx.purgeCount = ctx.purgeCount ∨
    (stepTick cfg ctx env).ctx.purgeCount = 0 ∨
    ((stepTick cfg ctx env).ctx.purgeCount = ctx.purgeCount + 1 ∧
      ctx.purgeCount < cfg.max_purge) := by
  cases hst : ctx.state
  case UNINIT =>
    left; simp [stepTick, hst, process_UNINIT]
  case STANDBY =>
    left; simp [stepTick, hst, process_STANDBY, getRequest_eq,
      apply_ite SeqCtx.purgeCount, ite_self]
  case DIAGNOSTICS =>
    left; simp [stepTick, hst, process_DIAGNOSTICS, getRequest_eq,
      apply_ite SeqCtx.purgeCount, ite_self]
  case SETUP =>
    left; simp [stepTick, hst, process_SETUP, getRequest_eq,
      apply_ite SeqCtx.purgeCount, ite_self]
  case FILL_PREP1 =>
    left; simp [stepTick, hst, process_FILL_PREP1, getRequest_eq,
      apply_ite SeqCtx.purgeCount, ite_self]
  case FILL_PREP2 =>
    left; simp [stepTick, hst, process_FILL_PREP2, getRequest_eq,
      apply_ite SeqCtx.purgeCount, ite_self]
  case FILL_RESET_STOP =>
    left; simp [stepTick, hst, process_FILL_RESET_STOP, getRequest_eq,
      apply_ite SeqCtx.purgeCount, ite_self]
  case FILL_PRESSURIZE =>
    left; simp [stepTick, hst, process_FILL_PRESSURIZE, getRequest_eq,
      apply_ite SeqCtx.purgeCount, ite_self]
  case FILL_PURGE_INIT =>
    right; left; simp [stepTick, hst, process_FILL_PURGE_INIT]
  case FILL_PURGE_SETUP =>
    cases hfs : env.footswitchLatched with
    | false =>
      left; simp [stepTick, hst, process_FILL_PURGE_SETUP, hfs, getRequest_eq,
        apply_ite SeqCtx.purgeCount, ite_self]
    | true =>
      by_cases hge : ctx.purgeCount ≥ cfg.max_purge
      · left
        simp [stepTick, hst, process_FILL_PURGE_SETUP, hfs, if_pos hge]
      · right; right
        refine ⟨?_, lt_of_not_ge hge⟩
        simp [stepTick, hst, process_FILL_PURGE_SETUP, hfs, if_neg hge, getRequest_eq,
          apply_ite SeqCtx.purgeCount, ite_self]
  case FILL_PURGE_WAIT =>
    left
    cases hte : env.timerExpired <;>
      simp [stepTick, hst, process_FILL_PURGE_WAIT, hte, getRequest_eq,
        apply_ite SeqCtx.purgeCount, ite_self]
  case FILL_PURGE_CLEAR_WAIT =>
    left; simp [stepTick, hst, process_FILL_PURGE_CLEAR_WAIT, getRequest_eq,
      apply_ite SeqCtx.purgeCount, ite_self]
  case FILL_PURGE_RESET_WAIT =>
    left; simp [stepTick, hst, process_FILL_PURGE_RESET_WAIT, getRequest_eq,
      apply_ite SeqCtx.purgeCount, ite_self]
  case FILL_CLEAR_BOTTLE =>
    left; simp [stepTick, hst, process_FILL_CLEAR_BOTTLE, getRequest_eq,
      apply_ite SeqCtx.purgeCount, ite_self]
  case FILL_LOAD_BOTTLE =>
    left; simp [stepTick, hst, process_FILL_LOAD_BOTTLE, getRequest_eq,
      apply_ite SeqCtx.purgeCount, ite_self]
  case FILL_LOAD_BOTTLE_WAIT =>
    left; simp [stepTick, hst, process_FILL_LOAD_BOTTLE_WAIT, getRequest_eq,
      apply_ite SeqCtx.purgeCount, ite_self]
  case FILL_READY_SETUP =>
    left; simp [stepTick, hst, process_FILL_READY_SETUP, getRequest_eq,
      apply_ite SeqCtx.purgeCount, ite_self]
  case FILL_READY_WAIT =>
    left
    cases hfs : env.footswitchLatched <;>
      simp [stepTick, hst, process_FILL_READY_WAIT, hfs, getRequest_eq,
        apply_ite SeqCtx.purgeCount, ite_self]
  case FILL_INIT_FILLING =>
    left; simp [stepTick, hst, process_FILL_INIT_FILLING]
  case FILL_INIT_FILLING_WAIT =>
    left
    cases hts : (env.timerExpired && env.stable) with
    | false =>
      simp [stepTick, hst, process_FILL_INIT_FILLING_WAIT, hts, getRequest_eq,
        apply_ite SeqCtx.purgeCount, ite_self]
    | true =>
      rw [Bool.and_eq_true] at hts
      by_cases hlt : env.weight - ctx.weightWithBottle < cfg.fill_init_dispense_min
      · simp [stepTick, hst, process_FILL_INIT_FILLING_WAIT, hts.1, hts.2, if_pos hlt]
      · simp [stepTick, hst, process_FILL_INIT_FILLING_WAIT, hts.1, hts.2, if_neg hlt,
          getRequest_eq, apply_ite SeqCtx.purgeCount, ite_self]
  case FILL_INIT_FILLING_FAILED =>
    left; simp [stepTick, hst, process_FILL_INIT_FILLING_FAILED, getRequest_eq,
      apply_ite SeqCtx.purgeCount, ite_self]
  case FILL_FILLING_WAIT =>
    left; simp [stepTick, hst, process_FILL_FILLING_WAIT, getRequest_eq,
      apply_ite SeqCtx.purgeCount, ite_self]
  case FILL_FILLING_FAILED =>
    left; simp [stepTick, hst, process_FILL_FILLING_FAILED, getRequest_eq,
      apply_ite SeqCtx.purgeCount, ite_self]
  case FILL_TERMINATE =>
    left; simp [stepTick, hst, process_FILL_TERMINATE]
  case CLEAN =>
    left; simp [stepTick, hst, process_CLEAN, getRequest_eq,
      apply_ite (Prod.fst : SeqCtx × List Command → SeqCtx),
      apply_ite SeqCtx.purgeCount, ite_self]
  case TERMINATE =>
    left; simp [stepTick, hst, process_TERMINATE]

/-- Claim C8: in every reachable sequencer context `purge_count` stays at
or below the configured `max_purge` (non-negative, fixed for the run); and
a pedal press handled in `FILL_PURGE_SETUP` with `purge_count = max_purge`
routes to `FILL_PURGE_RESET_WAIT`, posts no command, and leaves the counter
unchanged. -/
theorem C8_purge_bound (cfg : Config) (hmax : 0 ≤ cfg.max_purge) :
    (∀ ctx, Reach cfg ctx → ctx.purgeCount ≤ cfg.max_purge) ∧
    (∀ (ctx : SeqCtx) (env : Env),
      ctx.state = STATES.FILL_PURGE_SETUP → env.footswitchLatched = true →
      ctx.purgeCount = cfg.max_purge →
      (stepTick cfg ctx env).ctx.state = STATES.FILL_PURGE_RESET_WAIT ∧
      (stepTick cfg ctx env).posted = [] ∧
      (stepTick cfg ctx env).ctx.purgeCount = ctx.purgeCount) := by
  constructor
  · intro ctx h
    induction h with
    | init => exact hmax
    | tick ctx env hr ih =>
      rcases stepTick_purgeCount cfg ctx env with h | h | ⟨h1, h2⟩ <;> omega
    | button ctx b hr ih => exact ih
  · intro ctx env hst hfs heq
    have hge : ctx.purgeCount ≥ cfg.max_purge := ge_of_eq heq
    refine ⟨?_, ?_, ?_⟩ <;>
      simp [stepTick, hst, process_FILL_PURGE_SETUP, hfs, if_pos hge]

/-- Context for the C8 witness: the purge counter has hit the default
maximum of 5 and the pedal is latched. -/
def c8ctx : SeqCtx := { initialCtx with state := .FILL_PURGE_SETUP, purgeCount := 5 }

/-- Environment for the C8 witness. -/
def c8env : Env :=
  { weight := 0, stable := false, stopswitch := false, footswitchLatched := true,
    pressure := 0, timerExpired := false }

/-- Witness for C8: the startup context satisfies the bound, and the sixth
pedal press at the default maximum routes to `FILL_PURGE_RESET_WAIT`
without posting anything. -/
theorem C8_purge_bound_witness :
    initialCtx.purgeCount ≤ defaultConfig.max_purge ∧
    (stepTick defaultConfig c8ctx c8env).ctx.state = STATES.FILL_PURGE_RESET_WAIT ∧
    (stepTick defaultConfig c8ctx c8env).posted = [] :=
  ⟨(C8_purge_bound defaultConfig (by decide)).1 initialCtx Reach.init,
   ((C8_purge_bound defaultConfig (by decide)).2 c8ctx c8env rfl rfl rfl).1,
   ((C8_purge_bound defaultConfig (by decide)).2 c8ctx c8env rfl rfl rfl).2.1⟩

end Philler
